import Mathlib

/-!
Shallow embedding of `Tools/nano_banana.py`, a deterministic seed-text to
TGA-image generator, together with proofs about its theme selection, its
header layout and its per-theme pixel rules.

Modelling conventions:
* Machine reals (Python floats) are modelled over `Rat`; comparisons of the
  form `math.sqrt e < c` with integer `e` and `c` are modelled as `e < c*c`
  (the square root is monotone and both sides are exactly representable).
* `math.sin` and `math.atan2` are pure functions of the standard library;
  they are abstract parameters `sinf`/`atanf` of the embedding.
* The MD5 digest (`hashlib.md5`) is an external fixed algorithm, modelled as
  an abstract parameter `md5 : String → Nat`.
* The Mersenne Twister generator behind `random.seed`/`random.randint` is an
  external fixed algorithm, modelled by the interface `RandGen`; its field
  `randint_mem` records Python's guarantee that `randint(a, b)` is in the
  inclusive range `[a, b]`.  `modelGen` is a concrete executable instance
  (a linear congruential stream) used to evaluate witnesses.
* Python `str.lower` is modelled on ASCII (`lowerChar`), which is exact for
  every string appearing in the development.
* Pixel buffers are lists of byte values (`Int`), three stored bytes per
  pixel in exactly the order written by the source: blue, green, red.
-/

namespace NanoBanana

/-- Source `clamp(val, min_val, max_val)`, i.e. `max(min_val, min(max_val, val))`. -/
def clamp (val lo hi : Int) : Int := max lo (min hi val)

/-- Interface of the seeded PRNG used by the source through `random.seed`
(field `seedf`) and `random.randint` (field `randint`, returning the drawn
value together with the advanced generator state).  `randint_mem` is
Python's contract that `randint(a, b)` lies in the inclusive range. -/
structure RandGen (S : Type) where
  seedf : Nat → S
  randint : S → Int → Int → Int × S
  randint_mem : ∀ s a b, a ≤ b → a ≤ (randint s a b).1 ∧ (randint s a b).1 ≤ b

/-- Step of a concrete linear congruential stream; stands in for the actual
Mersenne Twister (which lives in the Python standard library, outside this
repository) when a witness has to be evaluated. -/
def lcgNext (s : Nat) : Nat := (s * 1103515245 + 12345) % 4294967296

/-- Concrete executable instance of `RandGen`, used only for witnesses. -/
def modelGen : RandGen Nat where
  seedf n := n % 4294967296
  randint s a b := (a + ((s % (b - a + 1).toNat : Nat) : Int), lcgNext s)
  randint_mem := by
    intro s a b hab
    dsimp only
    have hn : 0 < (b - a + 1).toNat := by omega
    have hlt : s % (b - a + 1).toNat < (b - a + 1).toNat := Nat.mod_lt _ hn
    omega

/-- ASCII model of Python `str.lower` on one character. -/
def lowerChar (c : Char) : Char :=
  if 'A' ≤ c ∧ c ≤ 'Z' then Char.ofNat (c.toNat + 32) else c

/-- ASCII model of Python `str.lower`. -/
def lowerStr (s : List Char) : List Char := s.map lowerChar

/-- Python substring containment `needle in hay`. -/
def hasSub (needle : List Char) : List Char → Bool
  | [] => needle.isEmpty
  | c :: rest => needle.isPrefixOf (c :: rest) || hasSub needle rest

/-- Python `any(x in hay for x in subs)`. -/
def anyHas (subs : List String) (hay : List Char) : Bool :=
  subs.any fun n => hasSub n.data hay

/-- The themes of the source, in source order, plus the fallback. -/
inductive Theme where
  | tiktok | file_city | pokemon | imessage | rust | python | ios | ai
  | finance | real_estate | audio | camera | web | default
  deriving DecidableEq

/-- Theme dispatch of `generate_tga` (source lines 18-48), taken over the
already lowercased character list: the trigger substrings are tested in the
fixed source order and the first match wins. -/
def selectThemeL (ls : List Char) : Theme :=
  if hasSub "tiktok".data ls then .tiktok
  else if hasSub "file-city".data ls || hasSub "file city".data ls then .file_city
  else if hasSub "pokemon".data ls then .pokemon
  else if hasSub "msg".data ls || hasSub "chat".data ls then .imessage
  else if hasSub "rust".data ls then .rust
  else if hasSub "python".data ls then .python
  else if hasSub "ios".data ls || hasSub "app".data ls then .ios
  else if anyHas ["ai", "bot", "gpt", "intelligence", "model"] ls then .ai
  else if anyHas ["bank", "money", "finance", "gold", "cash", "price", "card", "calc", "budget"] ls then .finance
  else if anyHas ["real", "estate", "house", "mortgage", "rent", "landlord", "zillow"] ls then .real_estate
  else if anyHas ["audio", "voice", "sound", "speech", "say", "dtmf", "mouth"] ls then .audio
  else if anyHas ["camera", "photo", "image", "video", "face", "glitch"] ls then .camera
  else if anyHas ["web", "chrome", "browser", "link", "site", "scrape"] ls then .web
  else .default

/-- Theme selection as performed by `generate_tga`: lowercase, then match. -/
def selectTheme (seed_text : String) : Theme := selectThemeL (lowerStr seed_text.data)

/-- Row-major pixel emission shared by all themes: pixel `i` contributes its
three stored bytes (in exactly the order the source writes them into
`pixel_data`: blue, green, red) while threading the PRNG state. -/
def renderFrom {S : Type} (pix : Nat → S → (Int × Int × Int) × S) : Nat → Nat → S → List Int
  | _, 0, _ => []
  | i, n + 1, s =>
    let p := pix i s
    p.1.1 :: p.1.2.1 :: p.1.2.2 :: renderFrom pix (i + 1) n p.2

/-- Render a theme whose per-pixel rule never touches the PRNG; the pixel
function receives the coordinates `x = i % w`, `y = i / w` of the row-major
scan and returns the stored triple (blue, green, red). -/
def renderGrid (w h : Nat) (pix : Nat → Nat → Int × Int × Int) : List Int :=
  renderFrom (fun i _ => (pix (i % w) (i / w), ())) 0 (w * h) ()

/-- Shape test of `theme_tiktok`: a disc of radius 30 (the squared-distance
form of `math.sqrt(...) < 30`) or a vertical bar. -/
def tiktokShape (x y : Int) : Bool :=
  let nx := x + 40
  let ny := y + 40
  decide ((nx - 40) * (nx - 40) + (ny - 160) * (ny - 160) < 30 * 30) ||
    (decide (60 < nx) && decide (nx < 80) && decide (40 < ny) && decide (ny < 160))

/-- Per-pixel rule of `theme_tiktok`; the background fill `(20,20,20)` of the
first source loop is the value read back by the second loop. -/
def tiktokPix (w h x y : Nat) : Int × Int × Int :=
  let cx : Int := (x : Int) - ((w / 2 : Nat) : Int)
  let cy : Int := (y : Int) - ((h / 2 : Nat) : Int)
  let b0 : Int := 20
  let g0 : Int := 20
  let r0 : Int := 20
  let bg1 := if tiktokShape (cx + 5) cy then ((255 : Int), (255 : Int)) else (b0, g0)
  let r1 := if tiktokShape (cx - 5) cy then (255 : Int) else r0
  let g2 := if tiktokShape cx cy then (if r1 = 255 ∧ bg1.1 = 255 then (255 : Int) else bg1.2) else bg1.2
  (bg1.1, g2, r1)

/-- Per-pixel rule of `theme_file_city` (normalized coordinates over `Rat`). -/
def fileCityPix (w h x y : Nat) : Int × Int × Int :=
  let nx : Rat := (x : Rat) / (w : Rat)
  let ny : Rat := (y : Rat) / (h : Rat)
  let c0 := ((50 : Int), (100 : Int), (200 : Int))
  let c :=
    if 0.1 < nx ∧ nx < 0.9 ∧ 0.1 < ny ∧ ny < 0.9 then
      let c1 := ((80 : Int), (80 : Int), (220 : Int))
      let c2 := if 0.2 < nx ∧ nx < 0.8 ∧ 0.55 < ny ∧ ny < 0.9 then ((240 : Int), (240 : Int), (240 : Int)) else c1
      if 0.25 < nx ∧ nx < 0.75 ∧ 0.1 < ny ∧ ny < 0.4 then
        if 0.3 < nx ∧ nx < 0.45 ∧ 0.15 < ny ∧ ny < 0.35 then ((40 : Int), (40 : Int), (40 : Int))
        else ((180 : Int), (180 : Int), (190 : Int))
      else c2
    else c0
  (c.2.2, c.2.1, c.1)

/-- Per-pixel rule of `theme_pokemon`; `math.sqrt(dx*dx+dy*dy) < c` is
modelled as `dx*dx+dy*dy < c*c`. -/
def pokemonPix (w h x y : Nat) : Int × Int × Int :=
  let dx : Int := (x : Int) - ((w / 2 : Nat) : Int)
  let dy : Int := (y : Int) - ((h / 2 : Nat) : Int)
  let d2 := dx * dx + dy * dy
  let c :=
    if d2 < 110 * 110 then
      let c1 :=
        if dy < -10 then ((220 : Int), (40 : Int), (40 : Int))
        else if dy > 10 then ((240 : Int), (240 : Int), (240 : Int))
        else ((20 : Int), (20 : Int), (20 : Int))
      if d2 < 30 * 30 then
        if d2 < 20 * 20 then ((255 : Int), (255 : Int), (255 : Int))
        else ((20 : Int), (20 : Int), (20 : Int))
      else c1
    else ((200 : Int), (200 : Int), (200 : Int))
  (c.2.2, c.2.1, c.1)

/-- Per-pixel rule of `theme_imessage`; `int(120 + grad * 50)` is a floor
since the argument is nonnegative. -/
def imessagePix (w h x y : Nat) : Int × Int × Int :=
  let dx : Int := (x : Int) - ((w / 2 : Nat) : Int)
  let dy : Int := (y : Int) - ((h / 2 : Nat) : Int)
  let c0 :=
    if |dx| < 80 ∧ |dy| < 50 then
      let grad : Rat := (y : Rat) / (h : Rat)
      ((0 : Int), Rat.floor ((120 : Rat) + grad * 50), (255 : Int))
    else ((255 : Int), (255 : Int), (255 : Int))
  let c1 :=
    if 160 < x ∧ x < 190 ∧ 150 < y ∧ y < 180 ∧ (x : Int) - 160 < 180 - (y : Int) then
      ((0 : Int), (120 : Int), (255 : Int))
    else c0
  (c1.2.2, c1.2.1, c1.1)

/-- The `math.sqrt(dx*dx + dy*dy) < 80` test of `theme_rust`, in squared form. -/
def insideRust (w h x y : Nat) : Prop :=
  ((x : Int) - ((w / 2 : Nat) : Int)) * ((x : Int) - ((w / 2 : Nat) : Int)) +
      ((y : Int) - ((h / 2 : Nat) : Int)) * ((y : Int) - ((h / 2 : Nat) : Int)) < 80 * 80

instance (w h x y : Nat) : Decidable (insideRust w h x y) := by
  unfold insideRust
  infer_instance

/-- Per-pixel rule of `theme_rust`: pixels inside the disc of radius 80 draw
two `randint(0, 50)` jitters and are darkened on the stripes `x % 40 > 30`;
pixels outside it are `(40,40,40)` and draw nothing. -/
def rustPix {S : Type} (G : RandGen S) (w h : Nat) (i : Nat) (s : S) : (Int × Int × Int) × S :=
  let x := i % w
  let y := i / w
  if insideRust w h x y then
    let p1 := G.randint s 0 50
    let p2 := G.randint p1.2 0 50
    let r := 180 + p1.1
    let g := 90 + p2.1
    let b : Int := 40
    if x % 40 > 30 then ((b, g - 20, r - 40), p2.2) else ((b, g, r), p2.2)
  else (((40 : Int), (40 : Int), (40 : Int)), s)

/-- Per-pixel rule of `theme_python` (`sinf` abstracts `math.sin`). -/
def pythonPix (sinf : Rat → Rat) (w h x y : Nat) : Int × Int × Int :=
  let ny : Rat := (y : Rat) / 20
  let sinx : Rat := sinf ny * 20
  let c0 := ((50 : Int), (50 : Int), (50 : Int))
  let c1 := if |((x : Rat) - (w : Rat) / 3) + sinx| < 15 then ((50 : Int), (100 : Int), (200 : Int)) else c0
  let c2 := if |((x : Rat) - 2 * (w : Rat) / 3) - sinx| < 15 then ((220 : Int), (200 : Int), (50 : Int)) else c1
  (c2.2.2, c2.2.1, c2.1)

/-- Per-pixel rule of `theme_ios`. -/
def iosPix (w h x y : Nat) : Int × Int × Int :=
  let gx := x % 64
  let gy := y % 64
  let c :=
    if 10 < gx ∧ gx < 54 ∧ 10 < gy ∧ gy < 54 then
      ((Int.ofNat (x * 5 % 255)), (Int.ofNat (y * 5 % 255)), (200 : Int))
    else ((240 : Int), (240 : Int), (240 : Int))
  (c.2.2, c.2.1, c.1)

/-- Per-pixel rule of `theme_ai`. -/
def aiPix (w h x y : Nat) : Int × Int × Int :=
  let c0 := ((0 : Int), (20 : Int), (0 : Int))
  let c1 := if x % 30 = 0 ∨ y % 30 = 0 then ((0 : Int), (150 : Int), (0 : Int)) else c0
  let c2 := if x % 60 = 0 ∧ y % 60 = 0 then ((100 : Int), (255 : Int), (100 : Int)) else c1
  (c2.2.2, c2.2.1, c2.1)

/-- Per-pixel rule of `theme_finance` (`sinf` abstracts `math.sin`). -/
def financePix (sinf : Rat → Rat) (w h x y : Nat) : Int × Int × Int :=
  let chart_y : Rat := (h : Rat) - ((x : Rat) / (w : Rat)) * ((h : Rat) * 0.8) - 20 + sinf ((x : Rat) / 10) * 20
  let c :=
    if |(y : Rat) - chart_y| < 2 then ((0 : Int), (180 : Int), (0 : Int))
    else if (y : Rat) > chart_y then ((200 : Int), (250 : Int), (200 : Int))
    else ((240 : Int), (255 : Int), (240 : Int))
  (c.2.2, c.2.1, c.1)

/-- Per-pixel rule of `theme_real_estate` (`x - w/2` uses Python float
division, hence `Rat`). -/
def realEstatePix (w h x y : Nat) : Int × Int × Int :=
  let c0 :=
    if (x / 20 + y / 10) % 2 = 0 then ((180 - 20 : Int), (80 - 10 : Int), (60 : Int))
    else ((180 : Int), (80 : Int), (60 : Int))
  let c1 :=
    if (y : Rat) < (h : Rat) / 3 ∧ (y : Rat) > |(x : Rat) - (w : Rat) / 2| then
      ((80 : Int), (40 : Int), (30 : Int))
    else c0
  (c1.2.2, c1.2.1, c1.1)

/-- Per-pixel rule of `theme_audio` (`sinf` abstracts `math.sin`). -/
def audioPix (sinf : Rat → Rat) (w h x y : Nat) : Int × Int × Int :=
  let amp : Rat := sinf ((x : Rat) / 10) * sinf ((x : Rat) / 50) * ((h : Rat) / 3)
  let c :=
    if |(y : Rat) - (h : Rat) / 2| < |amp| then ((100 : Int), (200 : Int), (255 : Int))
    else ((20 : Int), (20 : Int), (30 : Int))
  (c.2.2, c.2.1, c.1)

/-- Python `int(...)` truncation toward zero on a rational. -/
def truncQ (q : Rat) : Int := if q < 0 then Int.ceil q else Int.floor q

/-- Per-pixel rule of `theme_camera` (`atanf` abstracts `math.atan2`; note
Python `% 2` on a possibly negative int is `Int.emod`, which is what `%`
means on `Int` here). -/
def cameraPix (atanf : Rat → Rat → Rat) (w h x y : Nat) : Int × Int × Int :=
  let dx : Rat := (x : Rat) - (w : Rat) / 2
  let dy : Rat := (y : Rat) - (h : Rat) / 2
  let d2 : Rat := dx * dx + dy * dy
  let c :=
    if d2 < 100 * 100 then
      let angle := atanf dy dx
      let base :=
        if truncQ (angle * 6) % 2 = 0 then ((40 : Int), (40 : Int), (40 : Int))
        else ((20 : Int), (20 : Int), (20 : Int))
      if d2 < 40 * 40 then ((20 : Int), (0 : Int), (80 : Int)) else base
    else ((50 : Int), (50 : Int), (50 : Int))
  (c.2.2, c.2.1, c.1)

/-- Per-pixel rule of `theme_web`. -/
def webPix (w h x y : Nat) : Int × Int × Int :=
  let c0 := ((255 : Int), (255 : Int), (255 : Int))
  let c1 := if x % 30 = 0 ∨ y % 30 = 0 then ((200 : Int), (200 : Int), (255 : Int)) else c0
  let c2 :=
    if y < 40 then
      if x > 200 then ((255 : Int), (100 : Int), (100 : Int)) else ((220 : Int), (220 : Int), (220 : Int))
    else c1
  (c2.2.2, c2.2.1, c2.1)

/-- Per-pixel rule of `theme_default`: the three base channels were drawn
before the loop; each pixel draws one noise value in `[-20, 20]`, clamps,
and is overridden by the lit-window color whenever `x % 32` and `y % 32`
both lie strictly inside `(10, 22)`. -/
def defaultPix {S : Type} (G : RandGen S) (rb gb bb : Int) (w h : Nat) (i : Nat) (s : S) :
    (Int × Int × Int) × S :=
  let x := i % w
  let y := i / w
  let scale := 32
  let check := (x / scale + y / scale) % 2
  let p := G.randint s (-20) 20
  let noise := p.1
  let r := clamp (rb + (if check ≠ 0 then 40 else 0) + noise) 0 255
  let g := clamp (gb + (if check ≠ 0 then 40 else 0) + noise) 0 255
  let b := clamp (bb + (if check ≠ 0 then 40 else 0) + noise) 0 255
  let wx := x % 32
  let wy := y % 32
  let c := if 10 < wx ∧ wx < 22 ∧ 10 < wy ∧ wy < 22 then ((255 : Int), (255 : Int), (200 : Int)) else (r, g, b)
  ((c.2.2, c.2.1, c.1), p.2)

def theme_tiktok (w h : Nat) : List Int := renderGrid w h (tiktokPix w h)

def theme_file_city (w h : Nat) : List Int := renderGrid w h (fileCityPix w h)

def theme_pokemon (w h : Nat) : List Int := renderGrid w h (pokemonPix w h)

def theme_imessage (w h : Nat) : List Int := renderGrid w h (imessagePix w h)

def theme_rust {S : Type} (G : RandGen S) (w h : Nat) (s : S) : List Int :=
  renderFrom (rustPix G w h) 0 (w * h) s

def theme_python (sinf : Rat → Rat) (w h : Nat) : List Int := renderGrid w h (pythonPix sinf w h)

def theme_ios (w h : Nat) : List Int := renderGrid w h (iosPix w h)

def theme_ai (w h : Nat) : List Int := renderGrid w h (aiPix w h)

def theme_finance (sinf : Rat → Rat) (w h : Nat) : List Int := renderGrid w h (financePix sinf w h)

def theme_real_estate (w h : Nat) : List Int := renderGrid w h (realEstatePix w h)

def theme_audio (sinf : Rat → Rat) (w h : Nat) : List Int := renderGrid w h (audioPix sinf w h)

def theme_camera (atanf : Rat → Rat → Rat) (w h : Nat) : List Int := renderGrid w h (cameraPix atanf w h)

def theme_web (w h : Nat) : List Int := renderGrid w h (webPix w h)

/-- `theme_default`: three base draws `randint(50, 200)` before the loop,
then the per-pixel rule. -/
def theme_default {S : Type} (G : RandGen S) (w h : Nat) (s : S) : List Int :=
  let p1 := G.randint s 50 200
  let p2 := G.randint p1.2 50 200
  let p3 := G.randint p2.2 50 200
  renderFrom (defaultPix G p1.1 p2.1 p3.1 w h) 0 (w * h) p3.2

/-- The theme dispatch of `generate_tga`, after selection: only the rust and
default branches receive the freshly seeded PRNG state. -/
def themeRender {S : Type} (G : RandGen S) (sinf : Rat → Rat) (atanf : Rat → Rat → Rat)
    (th : Theme) (w h : Nat) (s0 : S) : List Int :=
  match th with
  | .tiktok => theme_tiktok w h
  | .file_city => theme_file_city w h
  | .pokemon => theme_pokemon w h
  | .imessage => theme_imessage w h
  | .rust => theme_rust G w h s0
  | .python => theme_python sinf w h
  | .ios => theme_ios w h
  | .ai => theme_ai w h
  | .finance => theme_finance sinf w h
  | .real_estate => theme_real_estate w h
  | .audio => theme_audio sinf w h
  | .camera => theme_camera atanf w h
  | .web => theme_web w h
  | .default => theme_default G w h s0

/-- The 18-byte TGA header written by `generate_tga` (source lines 51-58):
`header[12] = width & 0xFF`, `header[13] = (width >> 8) & 0xFF`, and the
same for the height at offsets 14-15. -/
def header (w h : Nat) : List Int :=
  [0, 0, 2, 0, 0, 0, 0, 0, 0, 0, 0, 0,
   Int.ofNat (w % 256), Int.ofNat (w / 256 % 256),
   Int.ofNat (h % 256), Int.ofNat (h / 256 % 256),
   24, 0]

/-- Bit 5 of a TGA image-descriptor byte: `1` means top-left origin, `0`
means bottom-left origin. -/
def originBit (d : Int) : Nat := d.toNat / 32 % 2

/-- The full byte sequence written by `generate_tga seed_text ... width
height`.  `gstate` is the global `random`-module state as it stands when
the call begins; the source immediately overwrites it via
`random.seed(seed_val)` with `seed_val = md5(seed_text)`, so the body never
consults `gstate`. -/
def generate_tga {S : Type} (G : RandGen S) (md5 : String → Nat) (sinf : Rat → Rat)
    (atanf : Rat → Rat → Rat) (gstate : S) (seed_text : String) (w h : Nat) : List Int :=
  header w h ++ themeRender G sinf atanf (selectTheme seed_text) w h (G.seedf (md5 seed_text))

/-- PRNG state reached after the first `k` pixels of a `renderFrom` scan that
started at pixel `i` in state `s`. -/
def stateAt {S : Type} (pix : Nat → S → (Int × Int × Int) × S) : Nat → Nat → S → S
  | _, 0, s => s
  | i, k + 1, s => stateAt pix (i + 1) k (pix i s).2

/-- Pixel-level transcription of claim C9 as stated, at stripe phase `p`:
inside the disc the colors are the jittered rust-orange, darkened exactly on
alternating 40-pixel-wide vertical stripes (the stripes with `x / 40 ≡ p`
modulo 2); outside it they are `(40,40,40)`. -/
def rustClaimPixel (buf : List Int) (w h x y p : Nat) : Prop :=
  (¬ insideRust w h x y →
    buf[3 * (y * w + x)]? = some 40 ∧ buf[3 * (y * w + x) + 1]? = some 40 ∧
      buf[3 * (y * w + x) + 2]? = some 40) ∧
  (insideRust w h x y →
    ∃ d1 d2 : Int, 0 ≤ d1 ∧ d1 ≤ 50 ∧ 0 ≤ d2 ∧ d2 ≤ 50 ∧
      buf[3 * (y * w + x)]? = some 40 ∧
      (x / 40 % 2 = p →
        buf[3 * (y * w + x) + 1]? = some (90 + d2 - 20) ∧
          buf[3 * (y * w + x) + 2]? = some (180 + d1 - 40)) ∧
      (x / 40 % 2 ≠ p →
        buf[3 * (y * w + x) + 1]? = some (90 + d2) ∧
          buf[3 * (y * w + x) + 2]? = some (180 + d1)))

/-- Claim C9 as stated, for a whole rust rendering: some stripe phase `p`
makes every pixel obey `rustClaimPixel`. -/
def rustClaimStated {S : Type} (G : RandGen S) (s : S) (w h : Nat) : Prop :=
  ∃ p : Nat, p < 2 ∧ ∀ x y : Nat, x < w → y < h →
    rustClaimPixel (theme_rust G w h s) w h x y p

theorem renderFrom_length {S : Type} (pix : Nat → S → (Int × Int × Int) × S) :
    ∀ (n i : Nat) (s : S), (renderFrom pix i n s).length = 3 * n := by
  intro n
  induction n with
  | zero => intro i s; rfl
  | succ m ih =>
    intro i s
    simp only [renderFrom, List.length_cons, ih]
    omega

theorem renderFrom_get3 {S : Type} (pix : Nat → S → (Int × Int × Int) × S) :
    ∀ (k i n : Nat) (s : S), k < n →
      (renderFrom pix i n s)[3 * k]? = some (pix (i + k) (stateAt pix i k s)).1.1 ∧
      (renderFrom pix i n s)[3 * k + 1]? = some (pix (i + k) (stateAt pix i k s)).1.2.1 ∧
      (renderFrom pix i n s)[3 * k + 2]? = some (pix (i + k) (stateAt pix i k s)).1.2.2 := by
  intro k
  induction k with
  | zero =>
    intro i n s hk
    match n, hk with
    | m + 1, _ => refine ⟨?_, ?_, ?_⟩ <;> simp [renderFrom, stateAt]
  | succ k ih =>
    intro i n s hk
    match n, hk with
    | m + 1, hk =>
      have hk' : k < m := by omega
      obtain ⟨h0, h1, h2⟩ := ih (i + 1) m (pix i s).2 hk'
      have hi : i + (k + 1) = i + 1 + k := by omega
      have hst : stateAt pix i (k + 1) s = stateAt pix (i + 1) k (pix i s).2 := rfl
      refine ⟨?_, ?_, ?_⟩
      · rw [show 3 * (k + 1) = 3 * k + 1 + 1 + 1 from by ring]
        simp only [renderFrom, List.getElem?_cons_succ]
        rw [hi, hst]
        exact h0
      · rw [show 3 * (k + 1) + 1 = 3 * k + 1 + 1 + 1 + 1 from by ring]
        simp only [renderFrom, List.getElem?_cons_succ]
        rw [hi, hst]
        exact h1
      · rw [show 3 * (k + 1) + 2 = 3 * k + 2 + 1 + 1 + 1 from by ring]
        simp only [renderFrom, List.getElem?_cons_succ]
        rw [hi, hst]
        exact h2

theorem renderFrom_forall_mem {S : Type} (pix : Nat → S → (Int × Int × Int) × S) (P : Int → Prop)
    (hP : ∀ j s, P (pix j s).1.1 ∧ P (pix j s).1.2.1 ∧ P (pix j s).1.2.2) :
    ∀ (n i : Nat) (s : S) (v : Int), v ∈ renderFrom pix i n s → P v := by
  intro n
  induction n with
  | zero => intro i s v hv; simp [renderFrom] at hv
  | succ m ih =>
    intro i s v hv
    simp only [renderFrom, List.mem_cons] at hv
    rcases hv with h | h | h | h
    · exact h ▸ (hP i s).1
    · exact h ▸ (hP i s).2.1
    · exact h ▸ (hP i s).2.2
    · exact ih (i + 1) (pix i s).2 v h

theorem flat_mod (w x y : Nat) (hx : x < w) : (y * w + x) % w = x := by
  rw [Nat.add_comm, Nat.add_mul_mod_self_right, Nat.mod_eq_of_lt hx]

theorem flat_div (w x y : Nat) (hx : x < w) : (y * w + x) / w = y := by
  rw [Nat.add_comm, Nat.add_mul_div_right _ _ (by omega : 0 < w), Nat.div_eq_of_lt hx,
    Nat.zero_add]

theorem flat_lt (w h x y : Nat) (hx : x < w) (hy : y < h) : y * w + x < w * h :=
  calc y * w + x < y * w + w := by omega
  _ = (y + 1) * w := by ring
  _ ≤ h * w := Nat.mul_le_mul_right _ (by omega)
  _ = w * h := Nat.mul_comm _ _

theorem renderGrid_length (w h : Nat) (pix : Nat → Nat → Int × Int × Int) :
    (renderGrid w h pix).length = 3 * (w * h) := renderFrom_length _ _ _ _

theorem renderGrid_get3 (w h : Nat) (pix : Nat → Nat → Int × Int × Int) (k : Nat)
    (hk : k < w * h) :
    (renderGrid w h pix)[3 * k]? = some (pix (k % w) (k / w)).1 ∧
    (renderGrid w h pix)[3 * k + 1]? = some (pix (k % w) (k / w)).2.1 ∧
    (renderGrid w h pix)[3 * k + 2]? = some (pix (k % w) (k / w)).2.2 := by
  have h := renderFrom_get3 (fun i _ => (pix (i % w) (i / w), ())) k 0 (w * h) () hk
  simpa using h

theorem renderGrid_pixel (w h : Nat) (pix : Nat → Nat → Int × Int × Int) (x y : Nat)
    (hx : x < w) (hy : y < h) :
    (renderGrid w h pix)[3 * (y * w + x)]? = some (pix x y).1 ∧
    (renderGrid w h pix)[3 * (y * w + x) + 1]? = some (pix x y).2.1 ∧
    (renderGrid w h pix)[3 * (y * w + x) + 2]? = some (pix x y).2.2 := by
  have h := renderGrid_get3 w h pix (y * w + x) (flat_lt w h x y hx hy)
  rw [flat_mod w x y hx, flat_div w x y hx] at h
  exact h

theorem header_length (w h : Nat) : (header w h).length = 18 := rfl

theorem append_header_byte (w h : Nat) (buf : List Int) (n : Nat) :
    (header w h ++ buf)[18 + n]? = buf[n]? := by
  rw [List.getElem?_append_right (by rw [header_length]; omega)]
  rw [header_length, show 18 + n - 18 = n from by omega]

theorem themeRender_length {S : Type} (G : RandGen S) (sinf : Rat → Rat)
    (atanf : Rat → Rat → Rat) (th : Theme) (w h : Nat) (s0 : S) :
    (themeRender G sinf atanf th w h s0).length = 3 * (w * h) := by
  cases th <;>
    simp [themeRender, theme_tiktok, theme_file_city, theme_pokemon, theme_imessage,
      theme_rust, theme_python, theme_ios, theme_ai, theme_finance, theme_real_estate,
      theme_audio, theme_camera, theme_web, theme_default, renderGrid_length,
      renderFrom_length]

theorem clamp_bounds (v : Int) : 0 ≤ clamp v 0 255 ∧ clamp v 0 255 ≤ 255 := by
  unfold clamp
  exact ⟨le_max_left _ _, max_le (by norm_num) (min_le_left _ _)⟩

theorem defaultPix_bounds {S : Type} (G : RandGen S) (rb gb bb : Int) (w h j : Nat) (s : S) :
    (0 ≤ (defaultPix G rb gb bb w h j s).1.1 ∧ (defaultPix G rb gb bb w h j s).1.1 ≤ 255) ∧
    (0 ≤ (defaultPix G rb gb bb w h j s).1.2.1 ∧ (defaultPix G rb gb bb w h j s).1.2.1 ≤ 255) ∧
    (0 ≤ (defaultPix G rb gb bb w h j s).1.2.2 ∧ (defaultPix G rb gb bb w h j s).1.2.2 ≤ 255) := by
  unfold defaultPix
  dsimp only
  split
  · norm_num
  · refine ⟨⟨?_, ?_⟩, ⟨?_, ?_⟩, ⟨?_, ?_⟩⟩ <;>
      first
        | exact (clamp_bounds _).1
        | exact (clamp_bounds _).2

theorem defaultPix_window {S : Type} (G : RandGen S) (rb gb bb : Int) (w h i : Nat) (s : S)
    (hwx1 : 10 < i % w % 32) (hwx2 : i % w % 32 < 22)
    (hwy1 : 10 < i / w % 32) (hwy2 : i / w % 32 < 22) :
    (defaultPix G rb gb bb w h i s).1 = (200, 255, 255) := by
  unfold defaultPix
  dsimp only
  rw [if_pos ⟨hwx1, hwx2, hwy1, hwy2⟩]

theorem theme_default_window {S : Type} (G : RandGen S) (w h : Nat) (s : S) (x y : Nat)
    (hx : x < w) (hy : y < h)
    (hwx1 : 10 < x % 32) (hwx2 : x % 32 < 22) (hwy1 : 10 < y % 32) (hwy2 : y % 32 < 22) :
    (theme_default G w h s)[3 * (y * w + x)]? = some 200 ∧
    (theme_default G w h s)[3 * (y * w + x) + 1]? = some 255 ∧
    (theme_default G w h s)[3 * (y * w + x) + 2]? = some 255 := by
  have hm : (y * w + x) % w = x := flat_mod w x y hx
  have hd : (y * w + x) / w = y := flat_div w x y hx
  have hk : y * w + x < w * h := flat_lt w h x y hx hy
  simp only [theme_default]
  obtain ⟨h0, h1, h2⟩ := renderFrom_get3 _ (y * w + x) 0 (w * h) _ hk
  rw [h0, h1, h2]
  rw [Nat.zero_add]
  rw [defaultPix_window G _ _ _ w h (y * w + x) _ (by rw [hm]; exact hwx1)
    (by rw [hm]; exact hwx2) (by rw [hd]; exact hwy1) (by rw [hd]; exact hwy2)]
  exact ⟨rfl, rfl, rfl⟩

/-- C1: for a fixed triple (seed text, width, height) — and fixed hash and
PRNG algorithms — the byte sequence written by `generate_tga` is the same in
any two invocations, whatever the global PRNG state (`g1`, `g2`) each
invocation starts from: the output depends on nothing but the arguments,
because `random.seed(seed_val)` reinitializes the stream before any draw. -/
theorem C1_deterministic_output {S : Type} (G : RandGen S) (md5 : String → Nat)
    (sinf : Rat → Rat) (atanf : Rat → Rat → Rat) (g1 g2 : S) (t : String) (w h : Nat) :
    generate_tga G md5 sinf atanf g1 t w h = generate_tga G md5 sinf atanf g2 t w h := rfl

/-- C2: theme selection is a pure function of the lowercased seed text under
the fixed priority order of the source, and in particular "MyTikTok Clone"
selects tiktok, "Rusty App" selects rust (before ios despite containing
"app"), and "budget calculator" selects finance. -/
theorem C2_theme_selection :
    (∀ t1 t2 : String, lowerStr t1.data = lowerStr t2.data → selectTheme t1 = selectTheme t2) ∧
    selectTheme "MyTikTok Clone" = Theme.tiktok ∧
    selectTheme "Rusty App" = Theme.rust ∧
    selectTheme "budget calculator" = Theme.finance := by
  refine ⟨?_, by decide, by decide, by decide⟩
  intro t1 t2 hl
  simp only [selectTheme, hl]

theorem C2_theme_selection_witness : selectTheme "TIKTOK" = selectTheme "tiktok" :=
  C2_theme_selection.1 "TIKTOK" "tiktok" (by decide)

/-- C6: the 18-byte header has byte 2 equal to 2, byte 16 equal to 24, the
width and height in little-endian 16-bit form at offsets 12-13 and 14-15
(their bytes recompose to the exact value whenever it fits in 16 bits), and
every other byte zero. -/
theorem C6_header_layout (w h : Nat) (hw : w ≤ 65535) (hh : h ≤ 65535) :
    (header w h).length = 18 ∧
    (header w h)[2]? = some 2 ∧
    (header w h)[16]? = some 24 ∧
    (header w h)[12]? = some (Int.ofNat (w % 256)) ∧
    (header w h)[13]? = some (Int.ofNat (w / 256 % 256)) ∧
    (header w h)[14]? = some (Int.ofNat (h % 256)) ∧
    (header w h)[15]? = some (Int.ofNat (h / 256 % 256)) ∧
    w % 256 + 256 * (w / 256 % 256) = w ∧
    h % 256 + 256 * (h / 256 % 256) = h ∧
    (∀ j : Nat, j ∈ ([0, 1, 3, 4, 5, 6, 7, 8, 9, 10, 11, 17] : List Nat) →
      (header w h)[j]? = some 0) := by
  refine ⟨rfl, rfl, rfl, rfl, rfl, rfl, rfl, by omega, by omega, ?_⟩
  intro j hj
  fin_cases hj <;> rfl

theorem C6_header_layout_witness :
    (header 256 256)[2]? = some 2 ∧ (header 256 256)[12]? = some 0 ∧
    (header 256 256)[13]? = some 1 ∧ (header 256 256)[14]? = some 0 ∧
    (header 256 256)[15]? = some 1 ∧ (header 256 256)[16]? = some 24 :=
  ⟨(C6_header_layout 256 256 (by norm_num) (by norm_num)).2.1, by decide, by decide,
    by decide, by decide, by decide⟩

/-- C7: for every seed text, width and height — hence every theme, the
fallback included — the pixel buffer handed to the encoder holds exactly
`w*h*3` bytes and the written file holds exactly `18 + w*h*3` bytes. -/
theorem C7_buffer_sizes {S : Type} (G : RandGen S) (md5 : String → Nat) (sinf : Rat → Rat)
    (atanf : Rat → Rat → Rat) (g : S) (t : String) (w h : Nat) :
    (themeRender G sinf atanf (selectTheme t) w h (G.seedf (md5 t))).length = w * h * 3 ∧
    (generate_tga G md5 sinf atanf g t w h).length = 18 + w * h * 3 := by
  constructor
  · rw [themeRender_length]; ring
  · unfold generate_tga
    rw [List.length_append, header_length, themeRender_length]
    ring

/-- C8: in the default theme every stored channel byte lies in [0, 255]: the
clamp bounds the checkerboard-plus-noise value, and the lit-window override
writes constants already in range. -/
theorem C8_default_clamped {S : Type} (G : RandGen S) (w h : Nat) (s : S) (v : Int)
    (hv : v ∈ theme_default G w h s) : 0 ≤ v ∧ v ≤ 255 := by
  simp only [theme_default] at hv
  exact renderFrom_forall_mem _ (fun u => 0 ≤ u ∧ u ≤ 255)
    (fun j s' => defaultPix_bounds G _ _ _ w h j s') (w * h) 0 _ v hv

theorem C8_default_clamped_witness :
    0 ≤ (theme_default modelGen 1 1 0).headI ∧ (theme_default modelGen 1 1 0).headI ≤ 255 :=
  C8_default_clamped modelGen 1 1 0 _ (by decide)

/-- C10: every theme other than default and rust consumes no PRNG draws, so
the output file is a function of the selected theme and the dimensions
alone: two seed texts selecting the same such theme give byte-identical
files even under different hash functions, PRNG algorithms and prior PRNG
states. -/
theorem C10_nonrandom_theme_independence {S1 S2 : Type} (G1 : RandGen S1) (G2 : RandGen S2)
    (md5a md5b : String → Nat) (sinf : Rat → Rat) (atanf : Rat → Rat → Rat)
    (g1 : S1) (g2 : S2) (t1 t2 : String) (w h : Nat)
    (hsame : selectTheme t1 = selectTheme t2)
    (hnd : selectTheme t1 ≠ Theme.default) (hnr : selectTheme t1 ≠ Theme.rust) :
    generate_tga G1 md5a sinf atanf g1 t1 w h = generate_tga G2 md5b sinf atanf g2 t2 w h := by
  unfold generate_tga
  rw [← hsame]
  cases hth : selectTheme t1 <;> first | rfl | exact absurd hth hnr | exact absurd hth hnd

theorem C10_nonrandom_theme_independence_witness :
    generate_tga modelGen (fun _ => 0) (fun _ => 0) (fun _ _ => 0) 0 "pokemon" 4 4 =
      generate_tga modelGen (fun _ => 1) (fun _ => 0) (fun _ _ => 0) 7 "POKEMON!!" 4 4 :=
  C10_nonrandom_theme_independence modelGen modelGen (fun _ => 0) (fun _ => 1) (fun _ => 0)
    (fun _ _ => 0) 0 7 "pokemon" "POKEMON!!" 4 4 (by decide) (by decide) (by decide)

/-- C3 counterexample: at the 256×256 default size, the stored byte of the
pixel at the image center (128,128) in the pokemon theme is 255, not 20: the
center has distance 0 from itself, hence lies inside the white button
(`dist < 20`), not in the black ring `30 ≤ dist < 110` the claim asserts. -/
theorem C3_counterexample :
    (theme_pokemon 256 256)[3 * (128 * 256 + 128)]? = some 255 ∧
    ¬ (theme_pokemon 256 256)[3 * (128 * 256 + 128)]? = some 20 := by
  have h := (renderGrid_pixel 256 256 (pokemonPix 256 256) 128 128 (by norm_num)
    (by norm_num)).1
  rw [show (pokemonPix 256 256 128 128).1 = 255 from by decide] at h
  unfold theme_pokemon
  exact ⟨h, by rw [h]; simp⟩

/-- C3 (amended): for seed "pokemon" at 256×256 the output is exactly
18+196608 = 196626 bytes; the pixel at the image center (128,128) has
distance 0 < 20 and is therefore white (255,255,255) — the ball's button,
not the black ring — and the pixel 15 rows above the center (dist 15 < 20)
is white (255,255,255) as the claim states. -/
theorem C3_pokemon_scenario {S : Type} (G : RandGen S) (md5 : String → Nat)
    (sinf : Rat → Rat) (atanf : Rat → Rat → Rat) (g : S) :
    (generate_tga G md5 sinf atanf g "pokemon" 256 256).length = 196626 ∧
    (generate_tga G md5 sinf atanf g "pokemon" 256 256)[18 + 3 * (128 * 256 + 128)]? = some 255 ∧
    (generate_tga G md5 sinf atanf g "pokemon" 256 256)[18 + (3 * (128 * 256 + 128) + 1)]? = some 255 ∧
    (generate_tga G md5 sinf atanf g "pokemon" 256 256)[18 + (3 * (128 * 256 + 128) + 2)]? = some 255 ∧
    (generate_tga G md5 sinf atanf g "pokemon" 256 256)[18 + 3 * (113 * 256 + 128)]? = some 255 ∧
    (generate_tga G md5 sinf atanf g "pokemon" 256 256)[18 + (3 * (113 * 256 + 128) + 1)]? = some 255 ∧
    (generate_tga G md5 sinf atanf g "pokemon" 256 256)[18 + (3 * (113 * 256 + 128) + 2)]? = some 255 := by
  have hsel : selectTheme "pokemon" = Theme.pokemon := by decide
  unfold generate_tga
  rw [hsel]
  simp only [themeRender]
  obtain ⟨hc0, hc1, hc2⟩ := renderGrid_pixel 256 256 (pokemonPix 256 256) 128 128
    (by norm_num) (by norm_num)
  obtain ⟨ha0, ha1, ha2⟩ := renderGrid_pixel 256 256 (pokemonPix 256 256) 128 113
    (by norm_num) (by norm_num)
  unfold theme_pokemon
  rw [List.length_append, header_length, renderGrid_length, append_header_byte,
    append_header_byte, append_header_byte, append_header_byte, append_header_byte,
    append_header_byte]
  rw [hc0, hc1, hc2, ha0, ha1, ha2]
  exact ⟨by norm_num, by decide, by decide, by decide, by decide, by decide, by decide⟩

/-- C4 counterexample: the descriptor byte at header offset 17 is 0, and its
origin bit (bit 5) is 0 — bottom-left — not 1 as the claim's top-left origin
would require. -/
theorem C4_counterexample :
    (header 256 256)[17]? = some 0 ∧ originBit 0 = 0 ∧ ¬ originBit 0 = 1 := by decide

/-- C4 (amended): for every width and height the image-descriptor byte at
offset 17 is 0; its origin bit is therefore 0, i.e. bottom-left origin, so
readers of the produced file interpret row 0 of the pixel data as the bottom
scan line. -/
theorem C4_descriptor_bottom_left (w h : Nat) :
    (header w h)[17]? = some 0 ∧ originBit 0 = 0 := ⟨rfl, rfl⟩

/-- C5: whenever the seed text selects the default theme and width and
height both exceed 15, the stored bytes of the pixel at (15,15) are
(200,255,255) in B,G,R order — the lit-window color (255,255,200) in R,G,B —
because 15 mod 32 lies strictly inside (10,22) in both coordinates. -/
theorem C5_default_window {S : Type} (G : RandGen S) (md5 : String → Nat)
    (sinf : Rat → Rat) (atanf : Rat → Rat → Rat) (g : S) (t : String) (w h : Nat)
    (ht : selectTheme t = Theme.default) (hw : 15 < w) (hh : 15 < h) :
    (generate_tga G md5 sinf atanf g t w h)[18 + 3 * (15 * w + 15)]? = some 200 ∧
    (generate_tga G md5 sinf atanf g t w h)[18 + (3 * (15 * w + 15) + 1)]? = some 255 ∧
    (generate_tga G md5 sinf atanf g t w h)[18 + (3 * (15 * w + 15) + 2)]? = some 255 := by
  unfold generate_tga
  rw [ht]
  obtain ⟨h0, h1, h2⟩ := theme_default_window G w h (G.seedf (md5 t)) 15 15 hw hh
    (by norm_num) (by norm_num) (by norm_num) (by norm_num)
  exact ⟨by rw [append_header_byte]; exact h0, by rw [append_header_byte]; exact h1,
    by rw [append_header_byte]; exact h2⟩

theorem C5_default_window_witness :
    (generate_tga modelGen (fun _ => 0) (fun _ => 0) (fun _ _ => 0) 0
      "zzz_unmatched_seed_123" 16 16)[18 + 3 * (15 * 16 + 15)]? = some 200 ∧
    (generate_tga modelGen (fun _ => 0) (fun _ => 0) (fun _ _ => 0) 0
      "zzz_unmatched_seed_123" 16 16)[18 + (3 * (15 * 16 + 15) + 1)]? = some 255 ∧
    (generate_tga modelGen (fun _ => 0) (fun _ => 0) (fun _ _ => 0) 0
      "zzz_unmatched_seed_123" 16 16)[18 + (3 * (15 * 16 + 15) + 2)]? = some 255 :=
  C5_default_window modelGen (fun _ => 0) (fun _ => 0) (fun _ _ => 0) 0
    "zzz_unmatched_seed_123" 16 16 (by decide) (by decide) (by decide)

set_option maxRecDepth 100000 in
/-- C9 counterexample: the claim's "alternating 40-pixel-wide vertical
stripes" is false for the code whatever stripe phase is meant: on a 72×1
rust rendering from concrete model-PRNG state 12, the pixel x = 0 (first
40-wide stripe) has red byte 192, which only fits the undarkened formula,
while pixel x = 35 (same 40-wide stripe) has red byte 171, which only fits
the darkened one — the code darkens by `x % 40 > 30`, not by 40-wide
alternation. -/
theorem C9_counterexample : ¬ rustClaimStated modelGen 12 72 1 := by
  rintro ⟨p, hp, hall⟩
  have hin0 : insideRust 72 1 0 0 := by decide
  have hin35 : insideRust 72 1 35 0 := by decide
  obtain ⟨d1, d2, hd1a, hd1b, -, -, -, hdk, -⟩ := (hall 0 0 (by norm_num) (by norm_num)).2 hin0
  obtain ⟨e1, e2, he1a, he1b, -, -, -, -, hpl⟩ :=
    (hall 35 0 (by norm_num) (by norm_num)).2 hin35
  interval_cases p
  · have h := (hdk rfl).2
    have hA : (theme_rust modelGen 72 1 12)[3 * (0 * 72 + 0) + 2]? = some 192 := by decide
    have he : (180 : Int) + d1 - 40 = 192 := Option.some.inj (h.symm.trans hA)
    omega
  · have h := (hpl (by norm_num)).2
    have hB : (theme_rust modelGen 72 1 12)[3 * (0 * 72 + 35) + 2]? = some 171 := by decide
    have he : (180 : Int) + e1 = 171 := Option.some.inj (h.symm.trans hB)
    omega

/-- C9 (amended): in the rust theme, every pixel outside the radius-80 disc
around the image center is (40,40,40); every pixel inside draws two PRNG
values d1, d2 in [0,50] and stores blue 40, green 90+d2, red 180+d1,
darkened (red by 40, green by 20) exactly on the 9-pixel-wide vertical
stripes where `x mod 40 > 30` (repeating with period 40), not on
alternating 40-pixel-wide stripes. -/
theorem C9_rust_stripes {S : Type} (G : RandGen S) (s : S) (w h x y : Nat)
    (hx : x < w) (hy : y < h) :
    (¬ insideRust w h x y →
      (theme_rust G w h s)[3 * (y * w + x)]? = some 40 ∧
      (theme_rust G w h s)[3 * (y * w + x) + 1]? = some 40 ∧
      (theme_rust G w h s)[3 * (y * w + x) + 2]? = some 40) ∧
    (insideRust w h x y →
      ∃ d1 d2 : Int, 0 ≤ d1 ∧ d1 ≤ 50 ∧ 0 ≤ d2 ∧ d2 ≤ 50 ∧
        (theme_rust G w h s)[3 * (y * w + x)]? = some 40 ∧
        (30 < x % 40 →
          (theme_rust G w h s)[3 * (y * w + x) + 1]? = some (90 + d2 - 20) ∧
            (theme_rust G w h s)[3 * (y * w + x) + 2]? = some (180 + d1 - 40)) ∧
        (¬ 30 < x % 40 →
          (theme_rust G w h s)[3 * (y * w + x) + 1]? = some (90 + d2) ∧
            (theme_rust G w h s)[3 * (y * w + x) + 2]? = some (180 + d1))) := by
  have hm : (y * w + x) % w = x := flat_mod w x y hx
  have hd : (y * w + x) / w = y := flat_div w x y hx
  have hk : y * w + x < w * h := flat_lt w h x y hx hy
  simp only [theme_rust]
  obtain ⟨h0, h1, h2⟩ := renderFrom_get3 (rustPix G w h) (y * w + x) 0 (w * h) s hk
  simp only [Nat.zero_add] at h0 h1 h2
  set st := stateAt (rustPix G w h) 0 (y * w + x) s with hst
  constructor
  · intro hout
    have e : rustPix G w h (y * w + x) st = (((40 : Int), (40 : Int), (40 : Int)), st) := by
      simp only [rustPix, hm, hd]
      rw [if_neg hout]
    rw [h0, h1, h2, e]
    exact ⟨rfl, rfl, rfl⟩
  · intro hin
    refine ⟨(G.randint st 0 50).1, (G.randint (G.randint st 0 50).2 0 50).1,
      (G.randint_mem st 0 50 (by norm_num)).1, (G.randint_mem st 0 50 (by norm_num)).2,
      (G.randint_mem ((G.randint st 0 50).2) 0 50 (by norm_num)).1,
      (G.randint_mem ((G.randint st 0 50).2) 0 50 (by norm_num)).2, ?_, ?_, ?_⟩
    · rw [h0]
      by_cases hstr : 30 < x % 40
      · have e : rustPix G w h (y * w + x) st =
            ((40, 90 + (G.randint (G.randint st 0 50).2 0 50).1 - 20,
              180 + (G.randint st 0 50).1 - 40), (G.randint (G.randint st 0 50).2 0 50).2) := by
          simp only [rustPix, hm, hd]
          rw [if_pos hin, if_pos hstr]
        rw [e]
      · have e : rustPix G w h (y * w + x) st =
            ((40, 90 + (G.randint (G.randint st 0 50).2 0 50).1,
              180 + (G.randint st 0 50).1), (G.randint (G.randint st 0 50).2 0 50).2) := by
          simp only [rustPix, hm, hd]
          rw [if_pos hin, if_neg hstr]
        rw [e]
    · intro hstr
      have e : rustPix G w h (y * w + x) st =
          ((40, 90 + (G.randint (G.randint st 0 50).2 0 50).1 - 20,
            180 + (G.randint st 0 50).1 - 40), (G.randint (G.randint st 0 50).2 0 50).2) := by
        simp only [rustPix, hm, hd]
        rw [if_pos hin, if_pos hstr]
      rw [h1, h2, e]
      exact ⟨rfl, rfl⟩
    · intro hstr
      have e : rustPix G w h (y * w + x) st =
          ((40, 90 + (G.randint (G.randint st 0 50).2 0 50).1,
            180 + (G.randint st 0 50).1), (G.randint (G.randint st 0 50).2 0 50).2) := by
        simp only [rustPix, hm, hd]
        rw [if_pos hin, if_neg hstr]
      rw [h1, h2, e]
      exact ⟨rfl, rfl⟩

theorem C9_rust_stripes_witness :
    (¬ insideRust 1 1 0 0 →
      (theme_rust modelGen 1 1 0)[3 * (0 * 1 + 0)]? = some 40 ∧
      (theme_rust modelGen 1 1 0)[3 * (0 * 1 + 0) + 1]? = some 40 ∧
      (theme_rust modelGen 1 1 0)[3 * (0 * 1 + 0) + 2]? = some 40) ∧
    (insideRust 1 1 0 0 →
      ∃ d1 d2 : Int, 0 ≤ d1 ∧ d1 ≤ 50 ∧ 0 ≤ d2 ∧ d2 ≤ 50 ∧
        (theme_rust modelGen 1 1 0)[3 * (0 * 1 + 0)]? = some 40 ∧
        (30 < 0 % 40 →
          (theme_rust modelGen 1 1 0)[3 * (0 * 1 + 0) + 1]? = some (90 + d2 - 20) ∧
            (theme_rust modelGen 1 1 0)[3 * (0 * 1 + 0) + 2]? = some (180 + d1 - 40)) ∧
        (¬ 30 < 0 % 40 →
          (theme_rust modelGen 1 1 0)[3 * (0 * 1 + 0) + 1]? = some (90 + d2) ∧
            (theme_rust modelGen 1 1 0)[3 * (0 * 1 + 0) + 2]? = some (180 + d1))) :=
  C9_rust_stripes modelGen 0 1 1 0 0 (by norm_num) (by norm_num)

end NanoBanana
